/-
Verification of the live-avatar rendering component (LiveAvatar):
the audio-envelope extractor, the per-frame compositor geometry,
and the capture-session start/stop lifecycle.

Real-number arithmetic of the source is modelled exactly over ℚ.  The
square-root steps of the source (RMS extraction in computeRms, Math.hypot
for the shoulder distance) are kept abstract: the envelope scaling is a
function of the already-extracted RMS value, and the compositor takes the
hypotenuse function as a parameter.
-/
import Mathlib

/-! ## Audio envelope extractor

Source `computeRms` (part_000 lines 11–22) reads the time-domain buffer,
computes `rms = sqrt(sumSquares / buffer.length)` and then returns
`Math.max(0, Math.min(1, (rms - 0.01) * 12))`.  `rmsScale` embeds that
final scaling step as a function of the RMS value. -/

def rmsScale (rms : ℚ) : ℚ :=
  max 0 (min 1 ((rms - 1/100) * 12))

/-! ## Landmark model and skeleton -/

/-- A pose keypoint with normalized planar coordinates (source landmarks
carry x, y in [0,1]). -/
structure Keypoint where
  x : ℚ
  y : ℚ
deriving DecidableEq, Repr

/-- The landmark snapshot: an index-addressed sequence of keypoints; an
entry may be missing (the render loop guards each access with a
truthiness check). -/
def Landmarks := List (Option Keypoint)

instance : DecidableEq Landmarks := by
  unfold Landmarks
  infer_instance

/-- `lm[i]` of the source: `none` when the index is out of range or the
entry itself is absent. -/
def lookupKP (lm : Landmarks) (i : Nat) : Option Keypoint :=
  (lm.get? i).bind id

namespace LM

def LEFT_SHOULDER : Nat := 11
def RIGHT_SHOULDER : Nat := 12
def LEFT_ELBOW : Nat := 13
def RIGHT_ELBOW : Nat := 14
def LEFT_WRIST : Nat := 15
def RIGHT_WRIST : Nat := 16
def LEFT_HIP : Nat := 23
def RIGHT_HIP : Nat := 24
def LEFT_KNEE : Nat := 25
def RIGHT_KNEE : Nat := 26
def LEFT_ANKLE : Nat := 27
def RIGHT_ANKLE : Nat := 28

end LM

/-- Source `SKELETON_CONNECTIONS` (part_000 lines 39–52). -/
def SKELETON_CONNECTIONS : List (Nat × Nat) :=
  [(LM.LEFT_SHOULDER, LM.RIGHT_SHOULDER),
   (LM.LEFT_SHOULDER, LM.LEFT_ELBOW),
   (LM.LEFT_ELBOW, LM.LEFT_WRIST),
   (LM.RIGHT_SHOULDER, LM.RIGHT_ELBOW),
   (LM.RIGHT_ELBOW, LM.RIGHT_WRIST),
   (LM.LEFT_HIP, LM.RIGHT_HIP),
   (LM.LEFT_SHOULDER, LM.LEFT_HIP),
   (LM.RIGHT_SHOULDER, LM.RIGHT_HIP),
   (LM.LEFT_HIP, LM.LEFT_KNEE),
   (LM.LEFT_KNEE, LM.LEFT_ANKLE),
   (LM.RIGHT_HIP, LM.RIGHT_KNEE),
   (LM.RIGHT_KNEE, LM.RIGHT_ANKLE)]

/-- A drawn bone segment: the two surface-space endpoints of one
`moveTo`/`lineTo` pair of the skeleton loop. -/
structure Segment where
  x1 : ℚ
  y1 : ℚ
  x2 : ℚ
  y2 : ℚ
deriving DecidableEq, Repr

/-- One iteration of the skeleton loop (part_000 lines 170–176): when both
endpoint keypoints exist, emit the segment with each coordinate scaled by
the surface dimension; otherwise `continue`. -/
def segmentFor (lm : Landmarks) (w h : ℚ) (c : Nat × Nat) : Option Segment :=
  match lookupKP lm c.1, lookupKP lm c.2 with
  | some p1, some p2 => some ⟨p1.x * w, p1.y * h, p2.x * w, p2.y * h⟩
  | _, _ => none

/-- All skeleton segments drawn for one frame. -/
def skeletonSegments (lm : Landmarks) (w h : ℚ) : List Segment :=
  SKELETON_CONNECTIONS.filterMap (segmentFor lm w h)

/-! ## Compositor geometry -/

/-- Source line 187: `Math.max(24, Math.min(80, shoulderDist * 0.35))`. -/
def headRadius (shoulderDist : ℚ) : ℚ :=
  max 24 (min 80 (shoulderDist * (35/100)))

/-- Tracked-face mouth envelope (part_000 lines 206–211): idle default 0.15,
replaced by the computed RMS scale when both the analysis node and the
sample buffer are present.  The `Option ℚ` argument is `some rms` exactly
in that case. -/
def mouthOpenTracked (audio : Option ℚ) : ℚ :=
  match audio with
  | some rms => rmsScale rms
  | none => 15/100

/-- Idle-face mouth envelope (part_000 lines 233–236): idle default 0.12,
replaced by the computed RMS scale when the audio source is present. -/
def mouthOpenIdle (audio : Option ℚ) : ℚ :=
  match audio with
  | some rms => rmsScale rms
  | none => 12/100

/-- The geometry of the tracked face drawn when both shoulders are found
(part_000 lines 183–217). -/
structure TrackedFace where
  cx : ℚ
  cy : ℚ
  headR : ℚ
  eyeR : ℚ
  mouthW : ℚ
  mouthH : ℚ
deriving DecidableEq, Repr

/-- The geometry of the idle face (part_000 lines 220–242); head centre,
radius and eyes are constants there, so only the mouth rectangle varies. -/
structure IdleFace where
  mouthW : ℚ
  mouthH : ℚ
deriving DecidableEq, Repr

/-- Which face (if any) the compositor draws in a frame. -/
inductive FaceDraw where
  | tracked (f : TrackedFace)
  | idle (f : IdleFace)
  | noFace
deriving DecidableEq, Repr

/-- One composed frame: the skeleton segments and the face drawn. -/
structure Frame where
  skeleton : List Segment
  face : FaceDraw
deriving DecidableEq, Repr

/-- Tracked face geometry from the shoulder keypoints
(part_000 lines 184–216).  `hyp` abstracts `Math.hypot`. -/
def trackedFaceOf (hyp : ℚ → ℚ → ℚ) (ls rs : Keypoint) (w h : ℚ)
    (audio : Option ℚ) : TrackedFace :=
  let cx := ((ls.x + rs.x) / 2) * w
  let cy := ((ls.y + rs.y) / 2) * h - 80
  let shoulderDist := hyp ((ls.x - rs.x) * w) ((ls.y - rs.y) * h)
  let r := headRadius shoulderDist
  let mouthOpen := mouthOpenTracked audio
  { cx := cx
    cy := cy
    headR := r
    eyeR := max 3 (r * (8/100))
    mouthW := r * (9/10)
    mouthH := max (r * (8/100)) (r * mouthOpen * (6/10)) }

/-- Idle face geometry (part_000 lines 237–238): width 52, height
`Math.max(6, mouthOpen * 30)`. -/
def idleFaceOf (audio : Option ℚ) : IdleFace :=
  { mouthW := 52
    mouthH := max 6 (mouthOpenIdle audio * 30) }

/-- The face part of the landmark branch (part_000 lines 181–218): head,
eyes and mouth are drawn only when both shoulder keypoints exist. -/
def faceForLandmarks (hyp : ℚ → ℚ → ℚ) (lm : Landmarks) (w h : ℚ)
    (audio : Option ℚ) : FaceDraw :=
  match lookupKP lm LM.LEFT_SHOULDER, lookupKP lm LM.RIGHT_SHOULDER with
  | some ls, some rs => FaceDraw.tracked (trackedFaceOf hyp ls rs w h audio)
  | _, _ => FaceDraw.noFace

/-- One invocation of `render` (part_000 lines 152–243), as the geometry it
draws.  The source branches on `lm && lm.length`: a present, non-empty
snapshot gets the skeleton plus the shoulder-guarded face; otherwise the
idle face is drawn and no skeleton. -/
def renderFrame (hyp : ℚ → ℚ → ℚ) (lm : Option Landmarks) (w h : ℚ)
    (audio : Option ℚ) : Frame :=
  match lm with
  | some l =>
    if l.isEmpty then
      { skeleton := [], face := FaceDraw.idle (idleFaceOf audio) }
    else
      { skeleton := skeletonSegments l w h
        face := faceForLandmarks hyp l w h audio }
  | none => { skeleton := [], face := FaceDraw.idle (idleFaceOf audio) }

/-! ## Capture-session lifecycle

The component refs (part_000 lines 55–65) hold the acquired resources.
`SessionState` records which of them are currently held; `tracksLive`
tracks whether the media-stream tracks are still running (they are stopped
by `stop` only through `v.srcObject`, lines 86–90). -/

structure SessionState where
  raf : Bool
  camera : Bool
  pose : Bool
  srcObject : Bool
  tracksLive : Bool
  analyser : Bool
  audioContext : Bool
  audioBuffer : Bool
  landmarks : Bool
deriving DecidableEq, Repr

/-- The state with no resources held (all refs null). -/
def stoppedState : SessionState :=
  { raf := false, camera := false, pose := false, srcObject := false,
    tracksLive := false, analyser := false, audioContext := false,
    audioBuffer := false, landmarks := false }

/-- The state after a completed `start()`: every resource acquired, and the
detector callback has populated the landmark cache. -/
def startedState : SessionState :=
  { raf := true, camera := true, pose := true, srcObject := true,
    tracksLive := true, analyser := true, audioContext := true,
    audioBuffer := true, landmarks := true }

/-- The external release calls the stop branch can issue
(part_000 lines 79–95). -/
inductive ReleaseAction where
  | cancelRaf
  | cameraStop
  | poseClose
  | tracksStop
  | analyserDisconnect
  | audioClose
deriving DecidableEq, Repr

/-- Which external release calls throw when invoked.  The source has no
try/catch in the stop branch, so a throw propagates out of the effect. -/
structure StopFaults where
  cameraThrows : Bool
  poseThrows : Bool
  trackThrows : Bool
  analyserThrows : Bool
  audioCloseThrows : Bool
deriving DecidableEq, Repr

def noStopFaults : StopFaults :=
  { cameraThrows := false, poseThrows := false, trackThrows := false,
    analyserThrows := false, audioCloseThrows := false }

/-- The stop branch (part_000 lines 76–97) statement by statement.  Returns
the resulting ref state, the list of external release calls that were
invoked (in order), and whether the branch ran to completion (`false` when
a release call threw; the statements after it, including the null-ing
assignment for the throwing resource itself, do not run). -/
def stopRun (f : StopFaults) (s0 : SessionState) : SessionState × List ReleaseAction × Bool :=
  -- if (rafRef.current) cancelAnimationFrame(rafRef.current); rafRef.current = null
  let acts0 : List ReleaseAction := if s0.raf then [ReleaseAction.cancelRaf] else []
  let s1 := { s0 with raf := false }
  -- cameraRef.current?.stop(); cameraRef.current = null
  if s1.camera && f.cameraThrows then (s1, acts0 ++ [ReleaseAction.cameraStop], false) else
  let acts1 := acts0 ++ (if s1.camera then [ReleaseAction.cameraStop] else [])
  let s2 := { s1 with camera := false }
  -- poseRef.current?.close(); poseRef.current = null
  if s2.pose && f.poseThrows then (s2, acts1 ++ [ReleaseAction.poseClose], false) else
  let acts2 := acts1 ++ (if s2.pose then [ReleaseAction.poseClose] else [])
  let s3 := { s2 with pose := false }
  -- if (v && v.srcObject) { getTracks().forEach(t => t.stop()); v.srcObject = null }
  if s3.srcObject && f.trackThrows then (s3, acts2 ++ [ReleaseAction.tracksStop], false) else
  let acts3 := acts2 ++ (if s3.srcObject then [ReleaseAction.tracksStop] else [])
  let s4 := if s3.srcObject then { s3 with srcObject := false, tracksLive := false } else s3
  -- analyserRef.current?.disconnect(); analyserRef.current = null
  if s4.analyser && f.analyserThrows then (s4, acts3 ++ [ReleaseAction.analyserDisconnect], false) else
  let acts4 := acts3 ++ (if s4.analyser then [ReleaseAction.analyserDisconnect] else [])
  let s5 := { s4 with analyser := false }
  -- audioContextRef.current?.close(); audioContextRef.current = null
  if s5.audioContext && f.audioCloseThrows then (s5, acts4 ++ [ReleaseAction.audioClose], false) else
  let acts5 := acts4 ++ (if s5.audioContext then [ReleaseAction.audioClose] else [])
  let s6 := { s5 with audioContext := false }
  -- audioBufferRef.current = null  (landmarksRef is not touched by the stop branch)
  ({ s6 with audioBuffer := false }, acts5, true)

/-- Fault-free `stop()`: the resulting ref state. -/
def stopState (s : SessionState) : SessionState :=
  (stopRun noStopFaults s).1

/-- Fault-free `stop()`: the release calls issued. -/
def stopActions (s : SessionState) : List ReleaseAction :=
  (stopRun noStopFaults s).2.1

/-- Which steps of the start sequence fail.  `mediaFails` is `getUserMedia`
rejecting; `playFails` is `video.play()` rejecting; `acCtorFails` is the
`AudioContext` constructor throwing; `graphFails` is the source node,
analysis node or connect call throwing (after `audioContextRef` was set);
`poseFails` is detector construction throwing; `cameraFails` is frame-pump
construction throwing. -/
structure StartFaults where
  mediaFails : Bool
  playFails : Bool
  acCtorFails : Bool
  graphFails : Bool
  poseFails : Bool
  cameraFails : Bool
deriving DecidableEq, Repr

def noStartFaults : StartFaults :=
  { mediaFails := false, playFails := false, acCtorFails := false,
    graphFails := false, poseFails := false, cameraFails := false }

/-- The async start sequence (part_000 lines 101–263), beginning from the
stopped state.  The `catch` handler (lines 259–262) only logs, so a
failure leaves every ref exactly as it was when the throw happened. -/
def startRun (f : StartFaults) : SessionState :=
  let s := stoppedState
  -- await getUserMedia({video, audio})
  if f.mediaFails then s else
  let s := { s with tracksLive := true }
  -- videoRef.current.srcObject = stream; await videoRef.current.play()
  let s := { s with srcObject := true }
  if f.playFails then s else
  -- const ac = new AudioContext()
  if f.acCtorFails then s else
  let s := { s with audioContext := true }
  -- createMediaStreamSource / createAnalyser / connect; analyserRef, audioBufferRef
  if f.graphFails then s else
  let s := { s with analyser := true, audioBuffer := true }
  -- new Pose(...); setOptions; onResults; poseRef
  if f.poseFails then s else
  let s := { s with pose := true }
  -- new Camera(...); cameraRef; cam.start()
  if f.cameraFails then s else
  let s := { s with camera := true }
  -- render() schedules itself: rafRef.current = requestAnimationFrame(render)
  { s with raf := true }

/-! ## Concrete inputs used for evaluation -/

/-- A degenerate hypotenuse function used to instantiate the abstract
`Math.hypot` parameter on concrete inputs. -/
def hyp0 : ℚ → ℚ → ℚ := fun _ _ => 0

/-- A landmark snapshot holding only both shoulder keypoints
(indices 11 and 12). -/
def demoLandmarks : Landmarks :=
  [none, none, none, none, none, none, none, none, none, none, none,
   some ⟨1/4, 1/4⟩, some ⟨3/4, 1/4⟩]

/-- The tracked face the compositor produces from `demoLandmarks` with
`hyp0` on a 1280×720 surface and no audio source. -/
def demoFace : TrackedFace :=
  { cx := 640, cy := 100, headR := 24, eyeR := 3, mouthW := 108/5, mouthH := 54/25 }

/-- A non-empty landmark snapshot in which both shoulder keypoints are
missing (only index 0 is present). -/
def demoShoulderless : Landmarks :=
  [some ⟨1/2, 1/2⟩]

/-! ## Claim theorems -/

/-- C2 counterexample: the RMS value 0.0105 satisfies the claimed floor
bound `r ≤ 0.01/12 + 0.01`, yet the computed envelope is 3/500, not 0. -/
theorem rmsScale_floor_threshold_cex :
    (21/2000 : ℚ) ≤ 1/100/12 + 1/100 ∧ rmsScale (21/2000) = 3/500 ∧ (3/500 : ℚ) ≠ 0 := by
  refine ⟨by norm_num, ?_, by norm_num⟩
  unfold rmsScale
  norm_num

/-- C2 (amended): the envelope is exactly 0 precisely on the floor
`r ≤ 0.01`; for every RMS input at or below 0.01 the affine image is
nonpositive and the clamp returns 0. -/
theorem rmsScale_zero_on_floor (r : ℚ) (h : r ≤ 1/100) : rmsScale r = 0 := by
  unfold rmsScale
  have h1 : (r - 1/100) * 12 ≤ 0 := by linarith
  rw [min_eq_right (by linarith : (r - 1/100) * 12 ≤ 1), max_eq_left h1]

/-- C2 witness: the floor at a concrete silent input, RMS 0.005. -/
theorem rmsScale_zero_on_floor_witness :
    (1/200 : ℚ) ≤ 1/100 ∧ rmsScale (1/200) = 0 :=
  ⟨by norm_num, rmsScale_zero_on_floor (1/200) (by norm_num)⟩

/-- C8: for every RMS input with `0.01 + 1/12 ≤ r` the affine image is at
least 1, so the clamped envelope is exactly 1. -/
theorem rmsScale_one_on_ceiling (r : ℚ) (h : 1/100 + 1/12 ≤ r) : rmsScale r = 1 := by
  unfold rmsScale
  have h1 : 1 ≤ (r - 1/100) * 12 := by linarith
  rw [min_eq_left h1, max_eq_right (by norm_num : (0:ℚ) ≤ 1)]

/-- C8 witness: the claimed scenario RMS = 0.1 lies above the ceiling and
yields envelope exactly 1. -/
theorem rmsScale_one_on_ceiling_witness :
    (1/100 + 1/12 : ℚ) ≤ 1/10 ∧ rmsScale (1/10) = 1 :=
  ⟨by norm_num, rmsScale_one_on_ceiling (1/10) (by norm_num)⟩

/-- C6: the head radius is the shoulder distance scaled by 0.35 and clamped
to [24, 80]: it always lies in that interval, coincident shoulders give 24,
any distance of at least 1600/7 (= 80/0.35) gives 80, and distance 200
gives 70. -/
theorem headRadius_clamped (d : ℚ) :
    (24 ≤ headRadius d ∧ headRadius d ≤ 80) ∧
    headRadius 0 = 24 ∧
    (1600/7 ≤ d → headRadius d = 80) ∧
    headRadius 200 = 70 := by
  refine ⟨⟨le_max_left _ _, ?_⟩, ?_, ?_, ?_⟩
  · exact max_le (by norm_num) (min_le_left _ _)
  · unfold headRadius; norm_num
  · intro hd
    unfold headRadius
    rw [min_eq_left (by linarith : (80:ℚ) ≤ d * (35/100)),
      max_eq_right (by norm_num : (24:ℚ) ≤ 80)]
  · unfold headRadius; norm_num

/-- C6 witness: far-apart shoulders (distance 300) hit the upper clamp. -/
theorem headRadius_clamped_witness :
    (1600/7 : ℚ) ≤ 300 ∧ headRadius 300 = 80 :=
  ⟨by norm_num, (headRadius_clamped 300).2.2.1 (by norm_num)⟩

/-- C5 counterexample: with no audio source the tracked-face envelope is
0.15 (and the idle-face envelope 0.12), not 0 as claimed. -/
theorem mouth_envelope_no_audio_cex :
    mouthOpenTracked none = 15/100 ∧ mouthOpenTracked none ≠ 0 ∧
    mouthOpenIdle none = 12/100 ∧ mouthOpenIdle none ≠ 0 := by
  refine ⟨rfl, ?_, rfl, ?_⟩ <;> norm_num [mouthOpenTracked, mouthOpenIdle]

/-- C5 (amended): when no audio source is available the envelope used to
size the mouth is the idle default (0.15 in the tracked branch, 0.12 in the
idle branch); when the audio source is available it is the computed RMS
scale in both branches. -/
theorem mouth_envelope_defaults :
    mouthOpenTracked none = 15/100 ∧ mouthOpenIdle none = 12/100 ∧
    ∀ r : ℚ, mouthOpenTracked (some r) = rmsScale r ∧ mouthOpenIdle (some r) = rmsScale r :=
  ⟨rfl, rfl, fun _ => ⟨rfl, rfl⟩⟩

/-- C1 counterexample: the stop branch never clears the landmark cache —
after a completed start, a fault-free stop leaves `landmarksRef` still
populated, contradicting the claim that stop discards it. -/
theorem stop_retains_landmark_cache :
    (stopState startedState).landmarks = true ∧ stopState startedState ≠ stoppedState := by
  refine ⟨by decide, by decide⟩

/-- C1 (amended): from the completed-start state a single fault-free stop
issues each external release exactly once and in source order (cancel
render frame, stop frame pump, close pose detector, stop media tracks,
disconnect analysis node, close audio context), clears every resource ref
including the sample buffer while retaining the landmark cache, and a
second stop immediately after issues no release call, changes nothing and
completes without error. -/
theorem stop_after_start_releases_once :
    stopActions startedState =
      [ReleaseAction.cancelRaf, ReleaseAction.cameraStop, ReleaseAction.poseClose,
       ReleaseAction.tracksStop, ReleaseAction.analyserDisconnect, ReleaseAction.audioClose] ∧
    stopState startedState = { stoppedState with landmarks := true } ∧
    (stopRun noStopFaults startedState).2.2 = true ∧
    stopActions (stopState startedState) = [] ∧
    stopState (stopState startedState) = stopState startedState ∧
    (stopRun noStopFaults (stopState startedState)).2.2 = true := by
  refine ⟨by decide, by decide, by decide, by decide, by decide, by decide⟩

/-- C3 counterexample: when pose-detector construction fails, the catch
handler only logs — the audio context, analysis node, sample buffer and
live media tracks acquired earlier all remain held, so start does not
leave zero resources. -/
theorem start_pose_failure_leaks_cex :
    (startRun { noStartFaults with poseFails := true }).audioContext = true ∧
    (startRun { noStartFaults with poseFails := true }).analyser = true ∧
    (startRun { noStartFaults with poseFails := true }).audioBuffer = true ∧
    (startRun { noStartFaults with poseFails := true }).tracksLive = true ∧
    startRun { noStartFaults with poseFails := true } ≠ stoppedState := by
  refine ⟨by decide, by decide, by decide, by decide, by decide⟩

/-- C3 (amended): only a device-acquisition failure leaves zero resources
held (the session state equals the stopped state); a failure in a later
step — audio-context construction, audio-graph construction, or
pose-detector construction — leaves every resource acquired before the
failing step still held, because the catch handler only logs. -/
theorem start_failure_resource_state :
    startRun { noStartFaults with mediaFails := true } = stoppedState ∧
    (startRun { noStartFaults with acCtorFails := true }).tracksLive = true ∧
    (startRun { noStartFaults with acCtorFails := true }).srcObject = true ∧
    (startRun { noStartFaults with acCtorFails := true }).audioContext = false ∧
    (startRun { noStartFaults with graphFails := true }).audioContext = true ∧
    (startRun { noStartFaults with graphFails := true }).analyser = false ∧
    (startRun { noStartFaults with poseFails := true }).analyser = true ∧
    (startRun { noStartFaults with poseFails := true }).pose = false ∧
    (startRun { noStartFaults with cameraFails := true }).pose = true ∧
    (startRun { noStartFaults with cameraFails := true }).camera = false := by
  refine ⟨by decide, by decide, by decide, by decide, by decide, by decide, by decide,
    by decide, by decide, by decide⟩

/-- C4 counterexample: the stop branch has no exception handling — when the
pose-detector close call throws from the completed-start state, teardown
aborts: the media tracks are never stopped, the analysis node is never
disconnected, the audio context is never closed, and those resources
remain held. -/
theorem stop_throwing_step_skips_releases_cex :
    (stopRun { noStopFaults with poseThrows := true } startedState).2.2 = false ∧
    ReleaseAction.tracksStop ∉ (stopRun { noStopFaults with poseThrows := true } startedState).2.1 ∧
    ReleaseAction.analyserDisconnect ∉ (stopRun { noStopFaults with poseThrows := true } startedState).2.1 ∧
    ReleaseAction.audioClose ∉ (stopRun { noStopFaults with poseThrows := true } startedState).2.1 ∧
    (stopRun { noStopFaults with poseThrows := true } startedState).1.tracksLive = true ∧
    (stopRun { noStopFaults with poseThrows := true } startedState).1.analyser = true ∧
    (stopRun { noStopFaults with poseThrows := true } startedState).1.audioContext = true := by
  refine ⟨by decide, by decide, by decide, by decide, by decide, by decide, by decide⟩

/-- C4 (amended): release steps run in order and each executes exactly once
per acquired resource provided no release call throws — a fault-free stop
always completes, clears every resource ref, and issues each release call
exactly once for each held resource (media tracks are stopped through the
playback-surface source) — but a throwing release call aborts the steps
after it, since the stop branch has no exception handling. -/
theorem stop_faultfree_releases_each_once (s : SessionState) :
    (stopRun noStopFaults s).2.2 = true ∧
    (stopRun noStopFaults s).1 =
      { s with
          raf := false,
          camera := false,
          pose := false,
          srcObject := false,
          tracksLive := s.tracksLive && !s.srcObject,
          analyser := false,
          audioContext := false,
          audioBuffer := false } ∧
    (stopRun noStopFaults s).2.1.count ReleaseAction.cancelRaf = (if s.raf then 1 else 0) ∧
    (stopRun noStopFaults s).2.1.count ReleaseAction.cameraStop = (if s.camera then 1 else 0) ∧
    (stopRun noStopFaults s).2.1.count ReleaseAction.poseClose = (if s.pose then 1 else 0) ∧
    (stopRun noStopFaults s).2.1.count ReleaseAction.tracksStop = (if s.srcObject then 1 else 0) ∧
    (stopRun noStopFaults s).2.1.count ReleaseAction.analyserDisconnect = (if s.analyser then 1 else 0) ∧
    (stopRun noStopFaults s).2.1.count ReleaseAction.audioClose = (if s.audioContext then 1 else 0) := by
  rcases s with ⟨r, c, p, so, t, an, ac, ab, l⟩
  revert r c p so t an ac ab l
  decide

/-- The mouth height stored in a tracked face satisfies the specified
formula as a function of the stored head radius and the envelope. -/
theorem trackedFaceOf_mouthH (hyp : ℚ → ℚ → ℚ) (ls rs : Keypoint) (w h : ℚ) (audio : Option ℚ) :
    (trackedFaceOf hyp ls rs w h audio).mouthH =
      max ((8/100) * (trackedFaceOf hyp ls rs w h audio).headR)
        (mouthOpenTracked audio * (trackedFaceOf hyp ls rs w h audio).headR * (6/10)) := by
  simp only [trackedFaceOf]
  congr 1 <;> ring

/-- C7: whenever a frame draws a tracked face (landmarks present, both
shoulders found), its mouth height equals
`max(0.08 × headRadius, envelope × headRadius × 0.6)`; and in the idle-face
branch with no audio source (envelope defaulting to 0.12) the mouth is
drawn with height `max(6, 0.12 × 30) = 6`. -/
theorem tracked_mouth_height_spec (hyp : ℚ → ℚ → ℚ) (lm : Option Landmarks) (w h : ℚ)
    (audio : Option ℚ) (f : TrackedFace)
    (hf : (renderFrame hyp lm w h audio).face = FaceDraw.tracked f) :
    f.mouthH = max ((8/100) * f.headR) (mouthOpenTracked audio * f.headR * (6/10)) ∧
    (renderFrame hyp none w h none).face = FaceDraw.idle { mouthW := 52, mouthH := 6 } := by
  constructor
  · cases lm with
    | none => simp [renderFrame] at hf
    | some l =>
      by_cases he : l.isEmpty = true
      · simp [renderFrame, he] at hf
      · rcases h11 : lookupKP l LM.LEFT_SHOULDER with _ | ls <;>
          rcases h12 : lookupKP l LM.RIGHT_SHOULDER with _ | rs <;>
          simp [renderFrame, he, faceForLandmarks, h11, h12] at hf
        rw [← hf]
        exact trackedFaceOf_mouthH hyp ls rs w h audio
  · have hi : idleFaceOf none = { mouthW := 52, mouthH := 6 } := by
      norm_num [idleFaceOf, mouthOpenIdle, max_def]
    simp [renderFrame, hi]

/-- C7 witness: a concrete snapshot holding both shoulders produces a
tracked face whose mouth height satisfies the formula. -/
theorem tracked_mouth_height_spec_witness :
    (renderFrame hyp0 (some demoLandmarks) 1280 720 none).face = FaceDraw.tracked demoFace ∧
    demoFace.mouthH = max ((8/100) * demoFace.headR)
      (mouthOpenTracked none * demoFace.headR * (6/10)) := by
  have h11 : lookupKP demoLandmarks LM.LEFT_SHOULDER = some ⟨1/4, 1/4⟩ := rfl
  have h12 : lookupKP demoLandmarks LM.RIGHT_SHOULDER = some ⟨3/4, 1/4⟩ := rfl
  have he : demoLandmarks.isEmpty = false := rfl
  have hf : (renderFrame hyp0 (some demoLandmarks) 1280 720 none).face
      = FaceDraw.tracked demoFace := by
    simp only [renderFrame, he, Bool.false_eq_true, if_false]
    simp only [faceForLandmarks, h11, h12]
    norm_num [trackedFaceOf, hyp0, headRadius, mouthOpenTracked, demoFace, max_def, min_def]
  exact ⟨hf, (tracked_mouth_height_spec hyp0 (some demoLandmarks) 1280 720 none demoFace hf).1⟩

/-- One iteration of the skeleton loop emits a segment exactly when both
endpoint keypoints exist, and then the endpoints are the normalized
coordinates scaled by the surface dimensions. -/
theorem segmentFor_eq_some (lm : Landmarks) (w h : ℚ) (c : Nat × Nat) (s : Segment) :
    segmentFor lm w h c = some s ↔
      ∃ p1 p2 : Keypoint, lookupKP lm c.1 = some p1 ∧ lookupKP lm c.2 = some p2 ∧
        s = ⟨p1.x * w, p1.y * h, p2.x * w, p2.y * h⟩ := by
  rcases h1 : lookupKP lm c.1 with _ | p1 <;> rcases h2 : lookupKP lm c.2 with _ | p2 <;>
    simp [segmentFor, h1, h2, eq_comm]

/-- C9: for every landmark set, a skeleton segment is drawn exactly for the
connections of SKELETON_CONNECTIONS whose both endpoint keypoints exist,
and each drawn segment joins the keypoint coordinates multiplied by the
surface width on the x axis and the surface height on the y axis. -/
theorem skeleton_segments_characterized (lm : Landmarks) (w h : ℚ) (s : Segment) :
    s ∈ skeletonSegments lm w h ↔
      ∃ c, c ∈ SKELETON_CONNECTIONS ∧ ∃ p1 p2 : Keypoint,
        lookupKP lm c.1 = some p1 ∧ lookupKP lm c.2 = some p2 ∧
        s = ⟨p1.x * w, p1.y * h, p2.x * w, p2.y * h⟩ := by
  unfold skeletonSegments
  rw [List.mem_filterMap]
  exact exists_congr fun c => and_congr_right fun _ => segmentFor_eq_some lm w h c s

/-- C10: when the landmark cache is non-empty but either shoulder keypoint
(index 11 or 12) is missing, the frame draws only the skeleton segments —
no head, eyes or mouth (no tracked face) and no idle face — while the idle
face is drawn exactly when the cache is absent or empty. -/
theorem shoulder_missing_skeleton_only (hyp : ℚ → ℚ → ℚ) (l : Landmarks) (w h : ℚ)
    (audio : Option ℚ) (hne : l ≠ [])
    (hsh : lookupKP l LM.LEFT_SHOULDER = none ∨ lookupKP l LM.RIGHT_SHOULDER = none) :
    (renderFrame hyp (some l) w h audio).face = FaceDraw.noFace ∧
    (renderFrame hyp (some l) w h audio).skeleton = skeletonSegments l w h ∧
    (renderFrame hyp none w h audio).face = FaceDraw.idle (idleFaceOf audio) ∧
    (renderFrame hyp (some ([] : Landmarks)) w h audio).face = FaceDraw.idle (idleFaceOf audio) := by
  have he2 : l.isEmpty = false := by
    cases l with
    | nil => exact absurd rfl hne
    | cons a t => rfl
  refine ⟨?_, ?_, ?_, ?_⟩
  · rcases hsh with hmiss | hmiss
    · rcases h12 : lookupKP l LM.RIGHT_SHOULDER with _ | rs <;>
        simp [renderFrame, he2, faceForLandmarks, hmiss, h12]
    · rcases h11 : lookupKP l LM.LEFT_SHOULDER with _ | ls <;>
        simp [renderFrame, he2, faceForLandmarks, hmiss, h11]
  · simp [renderFrame, he2]
  · simp [renderFrame]
  · simp [renderFrame]

/-- C10 witness: a non-empty snapshot with no shoulder keypoints yields a
frame with no face drawn. -/
theorem shoulder_missing_skeleton_only_witness :
    lookupKP demoShoulderless LM.LEFT_SHOULDER = none ∧ demoShoulderless ≠ [] ∧
    (renderFrame hyp0 (some demoShoulderless) 1280 720 none).face = FaceDraw.noFace := by
  have hne : demoShoulderless ≠ [] := by
    unfold demoShoulderless
    exact List.cons_ne_nil _ _
  exact ⟨rfl, hne, (shoulder_missing_skeleton_only hyp0 demoShoulderless 1280 720 none hne
    (Or.inl rfl)).1⟩


